import Mathlib

/-!
Verification of the crypto trade-sizing, ledger and stop-loss core of
robo_trader_cripto.  Monetary quantities (Python floats / Decimals) are
modelled as exact rationals; Python float `%` is floor-based remainder,
Decimal `%` is truncation-based remainder, `round(x, n)` and string
formatting `"{:.nf}"` are half-even decimal rounding.
-/

/-- Truncation toward zero (semantics of Python `Decimal` division used by
`Decimal.__mod__` and `ROUND_DOWN`). -/
def dec_trunc (x : ℚ) : ℤ := if 0 ≤ x then ⌊x⌋ else ⌈x⌉

/-- Round-half-even to an integer (tie-breaking of Python `round` and of
`"{:.nf}".format`). -/
def halfEven (x : ℚ) : ℤ :=
  if x - ⌊x⌋ < 1/2 then ⌊x⌋
  else if 1/2 < x - ⌊x⌋ then ⌊x⌋ + 1
  else if ⌊x⌋ % 2 = 0 then ⌊x⌋ else ⌊x⌋ + 1

/-- Round-half-even to `d` decimal places: Python `round(x, d)` and
`"{:.df}".format(x)` on the exact value. -/
def halfEvenTo (d : ℕ) (x : ℚ) : ℚ := (halfEven (x * 10 ^ d) : ℚ) / 10 ^ d

/-- Python float `%`: remainder following the divisor's sign,
`a - b * floor(a / b)`. -/
def pymod (a b : ℚ) : ℚ := a - b * ⌊a / b⌋

/-- Python `Decimal` `%`: truncation-based remainder,
`a - b * trunc(a / b)`. -/
def decRem (a b : ℚ) : ℚ := a - b * dec_trunc (a / b)

/-- `Decimal.quantize(1e-d, rounding=ROUND_DOWN)`: toward zero, which on the
nonnegative operands occurring in the program is the floor to the grid. -/
def quantDown (d : ℕ) (x : ℚ) : ℚ := (dec_trunc (x * 10 ^ d) : ℚ) / 10 ^ d

/-- `Decimal.quantize(1e-d, rounding=ROUND_UP)`: away from zero, which on the
nonnegative operands occurring in the program is the ceiling to the grid. -/
def quantUp (d : ℕ) (x : ℚ) : ℚ :=
  (if 0 ≤ x then ⌈x * 10 ^ d⌉ else ⌊x * 10 ^ d⌋ : ℤ) / 10 ^ d

theorem halfEven_intCast (m : ℤ) : halfEven (m : ℚ) = m := by
  simp [halfEven, Int.floor_intCast]

theorem halfEvenTo_on_grid (d : ℕ) (m : ℤ) :
    halfEvenTo d ((m : ℚ) / 10 ^ d) = (m : ℚ) / 10 ^ d := by
  have h10 : ((10 : ℚ) ^ d) ≠ 0 := by positivity
  unfold halfEvenTo
  rw [div_mul_cancel₀ _ h10, halfEven_intCast]

theorem le_quantUp (d : ℕ) (x : ℚ) (hx : 0 ≤ x) : x ≤ quantUp d x := by
  have h10 : (0 : ℚ) < 10 ^ d := by positivity
  unfold quantUp
  rw [if_pos hx, le_div_iff₀ h10]
  exact Int.le_ceil _

theorem quantUp_nonneg (d : ℕ) (x : ℚ) (hx : 0 ≤ x) : 0 ≤ quantUp d x :=
  le_trans hx (le_quantUp d x hx)

theorem quantUp_on_grid (d : ℕ) (x : ℚ) : ∃ m : ℤ, quantUp d x = (m : ℚ) / 10 ^ d := by
  unfold quantUp
  split
  · exact ⟨_, rfl⟩
  · exact ⟨_, rfl⟩

theorem ceil_as_floor (a : ℚ) : ⌈a⌉ = -⌊-a⌋ := by
  rw [← Int.ceil_neg, neg_neg]

/-- `TradeExecutor._ajustar_quantidade` (trade_executor.py:109-122):
`round(quantidade - (quantidade % step_size), 8)` on Python floats. -/
def ajustar_quantidade_exec (quantidade step_size : ℚ) : ℚ :=
  halfEvenTo 8 (quantidade - pymod quantidade step_size)

/-- `TradingBot.ajustar_quantidade` (trading_bot.py:101-178) after the symbol
filters are fetched: Decimal arithmetic with quantizer `1e-d`, where `d` is
the number of decimal places of the exchange's `stepSize` string.  The final
string formatting `f"{x:.df}"` is modelled by `halfEvenTo d`.  The symbol
lookup, the regex validation of the result string, and the exception path are
omitted: they do not alter the returned value. -/
def ajustar_quantidade (min_qty max_qty step_size min_notional preco_ativo
    quantidade : ℚ) (d : ℕ) : ℚ :=
  let min_quantity := max (quantUp d (min_notional / preco_ativo)) min_qty
  let quantidade_ajustada := quantDown d (quantidade - decRem quantidade step_size)
  let quantidade_ajustada :=
    if quantidade_ajustada < min_quantity then quantUp d min_quantity
    else quantidade_ajustada
  halfEvenTo d (min quantidade_ajustada max_qty)

/-- Tail of the buy branch of `TradeExecutor.executar_ordem`
(trade_executor.py:201-239): the `minQty` bump, the available-balance clamp
with its `* 1.001` margin, and the final minimum-notional check before the
order is transmitted.  `q` and `notional` are the adjusted quantity and its
notional after the minimum-notional recovery stage. -/
def executar_ordem_buy_rest (step_size min_qty min_notional preco_atual saldo
    q notional : ℚ) : Option ℚ :=
  let q1 := if q < min_qty then halfEvenTo 8 min_qty else q
  let p :=
    if saldo < notional then
      (ajustar_quantidade_exec (saldo / preco_atual * (1001/1000)) step_size,
       preco_atual *
         ajustar_quantidade_exec (saldo / preco_atual * (1001/1000)) step_size)
    else (q1, notional)
  if p.2 < min_notional then none else some p.1

/-- Buy branch of `TradeExecutor.executar_ordem` (trade_executor.py:165-239),
returning the quantity it would transmit, or `none` when the order is
abandoned.  `"{:f}".format` rounds to 6 decimal places, hence the
`halfEvenTo 6` in the minimum-notional recovery. -/
def executar_ordem_buy (step_size min_qty min_notional preco_atual saldo
    quantidade : ℚ) : Option ℚ :=
  let q1 := ajustar_quantidade_exec quantidade step_size
  let notional := preco_atual * q1
  if notional < min_notional then
    let q2 := ajustar_quantidade_exec
      (halfEvenTo 6 (min_notional / preco_atual * (12/10))) step_size
    let notional2 := preco_atual * q2
    if notional2 < min_notional then none
    else executar_ordem_buy_rest step_size min_qty min_notional preco_atual
      saldo q2 notional2
  else executar_ordem_buy_rest step_size min_qty min_notional preco_atual
    saldo q1 notional

/-- A row of the `transacoes` table (database_manager.py:21-37).  `data_hora`,
`id` and `valor_total` are omitted: no modelled operation reads them.
`vendido` is the closed flag (`vendido INTEGER DEFAULT 0`). -/
structure Transacao where
  simbolo : String
  tipo : String
  quantidade : ℚ
  preco : ℚ
  taxa : ℚ
  vendido : Bool
deriving DecidableEq

/-- A row of the `ganhos` table (database_manager.py:39-55), fields in the
order of `registrar_ganhos`; `data_hora` and `simbolo` omitted. -/
structure Ganho where
  valor_compras : ℚ
  valor_vendas : ℚ
  taxa_compra : ℚ
  ganhos : ℚ
  porcentagem : ℚ
  taxa_venda : ℚ
deriving DecidableEq

/-- The persisted state touched by the sell path: the `transacoes` rows, the
`ganhos` rows, and the symbol's `stop_loss` row `(stop_loss, preco_maximo)`
(the `resumo_financeiro` singleton is not modelled). -/
structure DBState where
  transacoes : List Transacao
  ganhos : List Ganho
  stopRow : Option (ℚ × ℚ)
deriving DecidableEq

/-- `DatabaseManager.obter_transacoes` (database_manager.py:183-212):
`SELECT * FROM transacoes WHERE simbolo = ? AND vendido = 0 AND tipo = ?`. -/
def obter_transacoes (rows : List Transacao) (simbolo tipo : String) :
    List Transacao :=
  rows.filter fun t => t.simbolo == simbolo && !t.vendido && t.tipo == tipo

/-- `TradingBot.calcular_preco_medio_e_quantidade_banco`
(trading_bot.py:76-99): returns
`(preco_medio, quantidade_total, taxas_total)` over the open COMPRA rows,
`(0, 0, 0)` when the accumulated quantity is zero. -/
def calcular_preco_medio_e_quantidade_banco (rows : List Transacao)
    (simbolo : String) : ℚ × ℚ × ℚ :=
  let acc := (obter_transacoes rows simbolo "COMPRA").foldl
    (fun a t => (a.1 + t.quantidade * t.preco, a.2.1 + t.quantidade,
                 a.2.2 + t.taxa))
    (0, 0, 0)
  if acc.2.1 = 0 then (0, 0, 0) else (acc.1 / acc.2.1, acc.2.1, acc.2.2)

/-- `DatabaseManager.atualizar_compras` (database_manager.py:174-181):
`UPDATE transacoes SET vendido = 1 WHERE simbolo = ? AND tipo = 'COMPRA'`. -/
def atualizar_compras (rows : List Transacao) (moeda : String) :
    List Transacao :=
  rows.map fun t =>
    if t.simbolo == moeda && t.tipo == "COMPRA" then { t with vendido := true }
    else t

/-- `TradingBot._calcular_ganhos` (trading_bot.py:383-411): total gain and
percentage gain of a sale; the percentage falls back to `0.0` when the total
buy value is falsy (zero). -/
def calcular_ganhos (quantidade preco_medio_compra preco_venda taxas_compras
    taxa_venda : ℚ) : ℚ × ℚ :=
  let valor_total_compras := preco_medio_compra * quantidade
  let valor_total_vendas := preco_venda * quantidade
  let ganho_total :=
    valor_total_vendas - valor_total_compras - taxas_compras - taxa_venda
  (ganho_total,
   if valor_total_compras = 0 then 0 else ganho_total / valor_total_compras * 100)

/-- `TradingBot._ajustar_quantidade_para_notional` (trading_bot.py:307-355):
raises the quantity to `min_notional / preco_atual` when its notional is too
small, returning `0.0` when the coin balance cannot cover the raise. -/
def ajustar_quantidade_para_notional (min_notional preco_atual
    saldo_disponivel quantidade : ℚ) : ℚ :=
  let notional := preco_atual * quantidade
  if notional < min_notional then
    let quantidade_ajustada := min_notional / preco_atual
    if saldo_disponivel < quantidade_ajustada then 0 else quantidade_ajustada
  else quantidade

/-- `TradingBot.vender` (trading_bot.py:180-305) as a transition on the
persisted state.  The ticker price, the symbol's manual `min_notional`, the
base-coin balance and the exchange's answer to the sell order
(`fill = some (fill price, fee)`, `none` on failure) are inputs.  The returned
flag records whether the order was handed to the executor.  Registered sale
quantity is `float(f"{q:.8f}")`, hence `halfEvenTo 8`. -/
def vender (db : DBState) (symbol action : String)
    (preco_atual min_notional saldo_moeda : ℚ) (fill : Option (ℚ × ℚ)) :
    DBState × Bool :=
  let pmt := calcular_preco_medio_e_quantidade_banco db.transacoes symbol
  let preco_medio_compra := pmt.1
  let quantidade_total := pmt.2.1
  let taxas_total_compras := pmt.2.2
  if quantidade_total = 0 then (db, false)
  else
    let quantidade_total_ajustada := ajustar_quantidade_para_notional
      min_notional preco_atual saldo_moeda quantidade_total
    if quantidade_total_ajustada ≤ 0 then (db, false)
    else
      let controle_compra := preco_medio_compra + taxas_total_compras * (1005/1000)
      if preco_atual ≤ controle_compra then (db, false)
      else
        match fill with
        | none => (db, true)
        | some (preco_venda_real, taxa) =>
          let valor_total := quantidade_total_ajustada * preco_venda_real
          let venda : Transacao :=
            ⟨symbol, "VENDA", halfEvenTo 8 quantidade_total_ajustada,
             preco_venda_real, taxa, true⟩
          let g := calcular_ganhos quantidade_total_ajustada preco_medio_compra
            preco_venda_real taxas_total_compras taxa
          ({ transacoes := atualizar_compras (db.transacoes ++ [venda]) symbol,
             ganhos := db.ganhos ++
               [⟨preco_medio_compra * quantidade_total_ajustada, valor_total,
                 taxas_total_compras + taxa, g.1, g.2, taxa⟩],
             stopRow := db.stopRow }, true)

/-- The trailing-stop update block of `TradingBot.executar_estrategia_venda`
(trading_bot.py:707-720): seed `(price * 0.97, price)` when no row exists,
move both up when the price makes a new high, otherwise keep the row. -/
def atualizar_stop_trailing (st : Option (ℚ × ℚ)) (preco_atual : ℚ) : ℚ × ℚ :=
  match st with
  | none => (preco_atual * (97/100), preco_atual)
  | some (stop_loss_atual, preco_maximo) =>
    if preco_maximo < preco_atual then (preco_atual * (97/100), preco_atual)
    else (stop_loss_atual, preco_maximo)

/-- Stop prices produced by iterating the trailing update over a list of
cycle close prices, starting from stop-loss state `st`. -/
def trailingStops (st : Option (ℚ × ℚ)) : List ℚ → List ℚ
  | [] => []
  | p :: ps =>
    let s := atualizar_stop_trailing st p
    s.1 :: trailingStops (some s) ps

/-- One symbol's iteration of `TradingBot.executar_estrategia_venda`
(trading_bot.py:695-738): update the trailing stop, sell the position when
the current price is at or below it, then unconditionally upsert the
stop-loss row (`salvar_stop_loss`). -/
def executar_estrategia_venda_ciclo (db : DBState) (symbol : String)
    (preco_atual min_notional saldo_moeda : ℚ) (fill : Option (ℚ × ℚ)) :
    DBState × Bool :=
  let sp := atualizar_stop_trailing db.stopRow preco_atual
  let r :=
    if preco_atual ≤ sp.1 then
      vender db symbol "Vender" preco_atual min_notional saldo_moeda fill
    else (db, false)
  ({ r.1 with stopRow := some sp }, r.2)

/-- `ajustar_intervalo_por_volatilidade` (atualiza_stoploss_bot.py:65-74):
minimum minutes between stop-loss recomputes per volatility bucket. -/
def ajustar_intervalo_por_volatilidade (volatilidade : ℚ) : ℕ :=
  if volatilidade < 5/1000 then 30
  else if volatilidade < 1/100 then 15
  else 5

/-- C1 (amended): for a positive `stepSize` on the 8-decimal rounding grid,
`TradeExecutor._ajustar_quantidade` returns an exact integer multiple of
`stepSize` and never exceeds `desiredQty` (initial quantization is a floor).
The 8-decimal `round` makes this fail for finer step sizes. -/
theorem ajustar_quantidade_exec_step_multiple (q s : ℚ) (hs : 0 < s)
    (k : ℕ) (hk : s = (k : ℚ) / 10 ^ 8) :
    ∃ n : ℤ, ajustar_quantidade_exec q s = n * s
      ∧ ajustar_quantidade_exec q s ≤ q := by
  have hval : q - pymod q s = s * (⌊q / s⌋ : ℚ) := by unfold pymod; ring
  have hgrid : q - pymod q s = (((k : ℤ) * ⌊q / s⌋ : ℤ) : ℚ) / 10 ^ 8 := by
    rw [hval, hk]; push_cast; ring
  have heq : ajustar_quantidade_exec q s = s * (⌊q / s⌋ : ℚ) := by
    unfold ajustar_quantidade_exec
    rw [hgrid, halfEvenTo_on_grid, ← hgrid, hval]
  refine ⟨⌊q / s⌋, ?_, ?_⟩
  · rw [heq]; ring
  · rw [heq]
    calc s * (⌊q / s⌋ : ℚ) ≤ s * (q / s) :=
          mul_le_mul_of_nonneg_left (Int.floor_le _) hs.le
      _ = q := by rw [mul_comm, div_mul_cancel₀ _ hs.ne.symm]

/-- Witness for C1's amended theorem at `q = 3e-8`, `s = 1e-8`. -/
theorem ajustar_quantidade_exec_step_multiple_witness :
    (0 : ℚ) < 1 / 10 ^ 8 ∧
      ∃ n : ℤ, ajustar_quantidade_exec (3 / 10 ^ 8) (1 / 10 ^ 8)
            = n * (1 / 10 ^ 8)
          ∧ ajustar_quantidade_exec (3 / 10 ^ 8) (1 / 10 ^ 8) ≤ 3 / 10 ^ 8 :=
  ⟨by norm_num,
   ajustar_quantidade_exec_step_multiple (3 / 10 ^ 8) (1 / 10 ^ 8)
     (by norm_num) 1 (by norm_num)⟩

/-- C1 counterexample: for `stepSize = desiredQty = 6e-9` the adjuster
returns `1e-8`, strictly above `desiredQty` (and not a multiple of the
step), refuting the round-down claim for arbitrary positive step sizes. -/
theorem ajustar_quantidade_exec_rounds_up_counterexample :
    6 / 10 ^ 9 < ajustar_quantidade_exec (6 / 10 ^ 9) (6 / 10 ^ 9) := by
  norm_num [ajustar_quantidade_exec, pymod, halfEvenTo, halfEven]

/-- C2 (amended): when the step-floored quantity's notional is below
`minNotional`, `TradingBot.ajustar_quantidade` recomputes the quantity as
the quantizer-grid round-up of `minNotional / currentPrice` (raised to at
least `minQty`), so — provided that recomputed quantity does not exceed
`maxQty` — the returned quantity's notional is at least `minNotional`.
The trailing `maxQty` clamp makes the unconditional claim fail. -/
theorem ajustar_quantidade_min_notional_recovery
    (min_qty max_qty step_size min_notional preco_ativo quantidade : ℚ)
    (d : ℕ) (hp : 0 < preco_ativo) (hmn : 0 ≤ min_notional)
    (hfloor : preco_ativo *
        quantDown d (quantidade - decRem quantidade step_size) < min_notional)
    (hmax : quantUp d (max (quantUp d (min_notional / preco_ativo)) min_qty)
        ≤ max_qty) :
    min_notional ≤ preco_ativo *
      ajustar_quantidade min_qty max_qty step_size min_notional preco_ativo
        quantidade d := by
  have hdiv : 0 ≤ min_notional / preco_ativo := div_nonneg hmn hp.le
  have hq1 : min_notional / preco_ativo
      ≤ quantUp d (min_notional / preco_ativo) := le_quantUp _ _ hdiv
  have hmq : min_notional / preco_ativo
      ≤ max (quantUp d (min_notional / preco_ativo)) min_qty :=
    le_trans hq1 (le_max_left _ _)
  have hbranch : quantDown d (quantidade - decRem quantidade step_size)
      < max (quantUp d (min_notional / preco_ativo)) min_qty := by
    have : quantDown d (quantidade - decRem quantidade step_size)
        < min_notional / preco_ativo := by
      rw [lt_div_iff₀ hp]
      linarith [hfloor]
    exact lt_of_lt_of_le this hmq
  have hup : min_notional / preco_ativo
      ≤ quantUp d (max (quantUp d (min_notional / preco_ativo)) min_qty) :=
    le_trans hmq (le_quantUp _ _ (le_trans hdiv hmq))
  obtain ⟨m, hm⟩ :=
    quantUp_on_grid d (max (quantUp d (min_notional / preco_ativo)) min_qty)
  have hres : ajustar_quantidade min_qty max_qty step_size min_notional
      preco_ativo quantidade d
      = quantUp d (max (quantUp d (min_notional / preco_ativo)) min_qty) := by
    simp only [ajustar_quantidade]
    rw [if_pos hbranch, min_eq_left hmax, hm, halfEvenTo_on_grid]
  rw [hres]
  calc min_notional = preco_ativo * (min_notional / preco_ativo) := by
        rw [mul_div_cancel₀ _ hp.ne.symm]
    _ ≤ preco_ativo *
        quantUp d (max (quantUp d (min_notional / preco_ativo)) min_qty) :=
        mul_le_mul_of_nonneg_left hup hp.le

/-- Witness for C2's amended theorem at the spec scenario: step `0.001`
(`d = 3`), `minNotional = 10`, price `50000`, desired quantity `0.0002`:
the quantity is raised to `0.001`, notional `50 ≥ 10`. -/
theorem ajustar_quantidade_min_notional_recovery_witness :
    ajustar_quantidade 0 9000000 (1/1000) 10 50000 (1/5000) 3 = 1/1000
    ∧ (10 : ℚ) ≤ 50000 *
        ajustar_quantidade 0 9000000 (1/1000) 10 50000 (1/5000) 3 :=
  ⟨by
    norm_num [ajustar_quantidade, quantUp, quantDown, decRem, dec_trunc,
      halfEvenTo, halfEven, ceil_as_floor, max_def, min_def],
   ajustar_quantidade_min_notional_recovery 0 9000000 (1/1000) 10 50000
     (1/5000) 3 (by norm_num) (by norm_num)
     (by norm_num [quantDown, decRem, dec_trunc])
     (by norm_num [quantUp, ceil_as_floor, max_def])⟩

/-- C2 counterexample: with `maxQty = 0` (same scenario otherwise) the
returned quantity's notional is `0 < 10`: the `maxQty` clamp runs after the
minimum-notional recovery, so the unconditional claim is false. -/
theorem ajustar_quantidade_max_qty_counterexample :
    50000 * ajustar_quantidade 0 0 (1/1000) 10 50000 (1/5000) 3 < 10 := by
  norm_num [ajustar_quantidade, quantUp, quantDown, decRem, dec_trunc,
    halfEvenTo, halfEven, ceil_as_floor, max_def, min_def]

/-- C3 (amended): in the buy path, when the step-adjusted quantity's notional
passes the minimum-notional stage but exceeds the available balance, the
quantity is recomputed from `availableBalance / currentPrice` with a `1.001`
upward margin, floored to the step grid; if the resulting notional is still
below `minNotional` the order is abandoned (`none`, InsufficientBalance),
otherwise that recomputed quantity is transmitted. -/
theorem executar_ordem_buy_balance_clamp
    (step_size min_qty min_notional preco_atual saldo quantidade : ℚ)
    (h1 : ¬ preco_atual * ajustar_quantidade_exec quantidade step_size
        < min_notional)
    (h2 : saldo < preco_atual * ajustar_quantidade_exec quantidade step_size) :
    executar_ordem_buy step_size min_qty min_notional preco_atual saldo
        quantidade =
      (if preco_atual *
            ajustar_quantidade_exec (saldo / preco_atual * (1001/1000))
              step_size < min_notional
       then none
       else some (ajustar_quantidade_exec (saldo / preco_atual * (1001/1000))
              step_size)) := by
  simp only [executar_ordem_buy, executar_ordem_buy_rest, if_neg h1, if_pos h2]

/-- Witness for C3's amended theorem at the spec scenario
`balance = 5`, `price = 50000`, `minNotional = 10` (step `0.001`, desired
quantity `1`): the clamped quantity floors to `0`, notional `0 < 10`, so the
buy fails with no order. -/
theorem executar_ordem_buy_balance_clamp_witness :
    executar_ordem_buy (1/1000) 0 10 50000 5 1 = none := by
  have h := executar_ordem_buy_balance_clamp (1/1000) 0 10 50000 5 1
    (by norm_num [ajustar_quantidade_exec, pymod, halfEvenTo, halfEven])
    (by norm_num [ajustar_quantidade_exec, pymod, halfEvenTo, halfEven])
  rw [h]
  norm_num [ajustar_quantidade_exec, pymod, halfEvenTo, halfEven]

/-- C3 counterexample: with `step = 0.001`, `price = 1000`,
`balance = 99.95`, the clamp transmits quantity `0.1` (notional
`100 > 99.95`), while flooring `balance / price` to the step grid would give
`0.099`: the claimed recompute formula (no `1.001` margin) is not what the
code does. -/
theorem executar_ordem_buy_margin_counterexample :
    executar_ordem_buy (1/1000) 0 10 1000 (9995/100) 1 = some (1/10)
    ∧ some ((1:ℚ)/10)
        ≠ some (ajustar_quantidade_exec ((9995/100) / 1000) (1/1000)) := by
  constructor
  · norm_num [executar_ordem_buy, executar_ordem_buy_rest,
      ajustar_quantidade_exec, pymod, halfEvenTo, halfEven]
  · norm_num [ajustar_quantidade_exec, pymod, halfEvenTo, halfEven]

theorem trailingStops_chain_aux (ps : List ℚ) (s m : ℚ)
    (h : s ≤ m * (97/100)) :
    List.Chain' (· ≤ ·) (s :: trailingStops (some (s, m)) ps) := by
  induction ps generalizing s m with
  | nil => simp [trailingStops]
  | cons p ps ih =>
    simp only [trailingStops, atualizar_stop_trailing]
    by_cases hc : m < p
    · rw [if_pos hc]
      rw [List.chain'_cons]
      refine ⟨?_, ih (p * (97/100)) p (le_refl _)⟩
      calc s ≤ m * (97/100) := h
        _ ≤ p * (97/100) := by nlinarith
    · rw [if_neg hc]
      rw [List.chain'_cons]
      exact ⟨le_refl s, ih s m h⟩

/-- C4: across any sequence of sell-cycle updates starting from a fresh
position, the stored stop price is non-decreasing (ratchet); on the states
the update itself produces (where `stop = peak * 0.97`) the update computes
exactly `peak := max(peak, price)`, `stop := max(stop, peak * (1 - 3%))`;
and the spec scenario `100, 120, 110` yields stops `97, 116.4, 116.4`. -/
theorem stop_loss_ratchet :
    (∀ ps : List ℚ, List.Chain' (· ≤ ·) (trailingStops none ps))
    ∧ (∀ s m p : ℚ, s = m * (97/100) →
        atualizar_stop_trailing (some (s, m)) p
          = (max s (max m p * (97/100)), max m p))
    ∧ trailingStops none [100, 120, 110] = [97, 582/5, 582/5] := by
  refine ⟨?_, ?_, ?_⟩
  · intro ps
    cases ps with
    | nil => simp [trailingStops]
    | cons p ps =>
      simp only [trailingStops, atualizar_stop_trailing]
      exact trailingStops_chain_aux ps (p * (97/100)) p (le_refl _)
  · intro s m p h
    simp only [atualizar_stop_trailing]
    by_cases hc : m < p
    · rw [if_pos hc, max_eq_right hc.le, max_eq_right]
      nlinarith
    · rw [if_neg hc, max_eq_left (not_lt.mp hc), ← h, max_self]
  · norm_num [trailingStops, atualizar_stop_trailing]

/-- Witness for C4's max-formula conjunct at `stop = 97`, `peak = 100`,
`price = 120`. -/
theorem stop_loss_ratchet_witness :
    atualizar_stop_trailing (some (97, 100)) 120 = (582/5, 120) := by
  have h := stop_loss_ratchet.2.1 97 100 120 (by norm_num)
  rw [h]
  norm_num [max_def]

theorem foldl_somas (ts : List Transacao) (a b c : ℚ) :
    ts.foldl
      (fun a t => (a.1 + t.quantidade * t.preco, a.2.1 + t.quantidade,
                   a.2.2 + t.taxa)) (a, b, c)
    = (a + (ts.map fun t => t.quantidade * t.preco).sum,
       b + (ts.map fun t => t.quantidade).sum,
       c + (ts.map fun t => t.taxa).sum) := by
  induction ts generalizing a b c with
  | nil => simp
  | cons t ts ih =>
    simp only [List.foldl_cons, List.map_cons, List.sum_cons, ih]
    refine Prod.ext (by ring) (Prod.ext (by ring) (by ring))

/-- C5: the position read is total (modelled as a pure function); over the
open BUY rows of a symbol with positive quantities it returns the
quantity-weighted mean of buy prices, the total open quantity and the total
fees; with no open rows it returns the zero position. -/
theorem preco_medio_weighted_mean (rows : List Transacao) (s : String) :
    (obter_transacoes rows s "COMPRA" ≠ [] →
      (∀ t ∈ obter_transacoes rows s "COMPRA", 0 < t.quantidade) →
      calcular_preco_medio_e_quantidade_banco rows s =
        (((obter_transacoes rows s "COMPRA").map
            fun t => t.quantidade * t.preco).sum /
          ((obter_transacoes rows s "COMPRA").map fun t => t.quantidade).sum,
         ((obter_transacoes rows s "COMPRA").map fun t => t.quantidade).sum,
         ((obter_transacoes rows s "COMPRA").map fun t => t.taxa).sum))
    ∧ (obter_transacoes rows s "COMPRA" = [] →
        calcular_preco_medio_e_quantidade_banco rows s = (0, 0, 0)) := by
  constructor
  · intro hne hpos
    have hsum : 0 < ((obter_transacoes rows s "COMPRA").map
        fun t => t.quantidade).sum := by
      apply List.sum_pos
      · intro q hq
        obtain ⟨t, ht, rfl⟩ := List.mem_map.mp hq
        exact hpos t ht
      · simpa using hne
    simp only [calcular_preco_medio_e_quantidade_banco, foldl_somas, zero_add]
    rw [if_neg hsum.ne.symm]
  · intro he
    simp [calcular_preco_medio_e_quantidade_banco, he]

/-- Witness for C5 at the spec scenario: buys of qty 1 @ 100 and qty 1 @ 200
give average cost 150 and total quantity 2. -/
theorem preco_medio_weighted_mean_witness :
    calcular_preco_medio_e_quantidade_banco
      [⟨"BTCUSDT", "COMPRA", 1, 100, 0, false⟩,
       ⟨"BTCUSDT", "COMPRA", 1, 200, 0, false⟩] "BTCUSDT" = (150, 2, 0) := by
  have h := (preco_medio_weighted_mean
    [⟨"BTCUSDT", "COMPRA", 1, 100, 0, false⟩,
     ⟨"BTCUSDT", "COMPRA", 1, 200, 0, false⟩] "BTCUSDT").1
    (by simp [obter_transacoes])
    (by norm_num [obter_transacoes])
  rw [h]
  norm_num [obter_transacoes]

/-- C6 evaluated at the failing input: a partial sell
(`action = "VenderParcial"`) of a position with two open BUY lots, with a
successful fill, marks every open BUY row of the symbol `vendido = 1` —
`atualizar_compras` runs unconditionally after any successful sell
(trading_bot.py:272), so a partial sell closes all lots instead of none. -/
theorem venda_parcial_fecha_compras :
    (((vender
        ⟨[⟨"BTCUSDT", "COMPRA", 1, 100, 0, false⟩,
           ⟨"BTCUSDT", "COMPRA", 1, 200, 0, false⟩], [], some (97, 100)⟩
        "BTCUSDT" "VenderParcial" 500 10 100
        (some (500, 1))).1.transacoes.filter
      fun t => t.tipo == "COMPRA").all fun t => t.vendido) = true
    ∧ (vender
        ⟨[⟨"BTCUSDT", "COMPRA", 1, 100, 0, false⟩,
           ⟨"BTCUSDT", "COMPRA", 1, 200, 0, false⟩], [], some (97, 100)⟩
        "BTCUSDT" "VenderParcial" 500 10 100 (some (500, 1))).2 = true
    ∧ (([⟨"BTCUSDT", "COMPRA", 1, 100, 0, false⟩,
         ⟨"BTCUSDT", "COMPRA", 1, 200, 0, false⟩] :
          List Transacao).all fun t => t.vendido) = false := by
  refine ⟨?_, ?_, by simp⟩ <;>
    norm_num [vender, calcular_preco_medio_e_quantidade_banco,
      obter_transacoes, ajustar_quantidade_para_notional, atualizar_compras,
      calcular_ganhos]

/-- C7: the recorded gain of a sale is exactly
`totalSellValue - totalBuyValue - buyFees - sellFee`, and the percentage is
`gain / totalBuyValue * 100`, with `0` when the total buy value is zero. -/
theorem calcular_ganhos_formula (q pm pv tc tv : ℚ) :
    (calcular_ganhos q pm pv tc tv).1 = pv * q - pm * q - tc - tv
    ∧ (pm * q ≠ 0 → (calcular_ganhos q pm pv tc tv).2
        = (pv * q - pm * q - tc - tv) / (pm * q) * 100)
    ∧ (pm * q = 0 → (calcular_ganhos q pm pv tc tv).2 = 0) := by
  refine ⟨rfl, ?_, ?_⟩ <;> intro h <;> simp [calcular_ganhos, h]

/-- Witness for C7 at qty 1, average cost 100, sale price 200, buy fees 1,
sell fee 2: gain 97 and percentage 97. -/
theorem calcular_ganhos_formula_witness :
    (100 : ℚ) * 1 ≠ 0
    ∧ (calcular_ganhos 1 100 200 1 2).2
        = (200 * 1 - 100 * 1 - 1 - 2) / (100 * 1) * 100 :=
  ⟨by norm_num, (calcular_ganhos_formula 1 100 200 1 2).2.1 (by norm_num)⟩

/-- C8 (amended): the sell cycle never deletes the symbol's stop-loss row:
whatever the outcome of a stop-triggered liquidation (confirmed fill or
failure), the cycle ends by upserting the (trailing-updated) row, so the row
is retained in both cases; `deleta_stop_loss` is not invoked on this path. -/
theorem stop_row_always_upserted (db : DBState) (symbol : String)
    (preco_atual min_notional saldo_moeda : ℚ) (fill : Option (ℚ × ℚ)) :
    (executar_estrategia_venda_ciclo db symbol preco_atual min_notional
        saldo_moeda fill).1.stopRow
      = some (atualizar_stop_trailing db.stopRow preco_atual) := rfl

/-- C8 counterexample: a stop-triggered full liquidation that the exchange
confirms (order handed over, all open BUY rows closed) still leaves the
symbol's stop-loss row in place — the claim that the row is deleted once the
sell is confirmed is false. -/
theorem stop_row_retained_after_sale_counterexample :
    (executar_estrategia_venda_ciclo
        ⟨[⟨"BTCUSDT", "COMPRA", 1, 50, 0, false⟩], [], some (95, 97)⟩
        "BTCUSDT" 90 10 5 (some (90, 1/10))).2 = true
    ∧ ((executar_estrategia_venda_ciclo
        ⟨[⟨"BTCUSDT", "COMPRA", 1, 50, 0, false⟩], [], some (95, 97)⟩
        "BTCUSDT" 90 10 5 (some (90, 1/10))).1.transacoes.filter
          fun t => t.tipo == "COMPRA" && !t.vendido) = []
    ∧ (executar_estrategia_venda_ciclo
        ⟨[⟨"BTCUSDT", "COMPRA", 1, 50, 0, false⟩], [], some (95, 97)⟩
        "BTCUSDT" 90 10 5 (some (90, 1/10))).1.stopRow = some (95, 97) := by
  refine ⟨?_, ?_, ?_⟩ <;>
    norm_num [executar_estrategia_venda_ciclo, atualizar_stop_trailing,
      vender, calcular_preco_medio_e_quantidade_banco, obter_transacoes,
      ajustar_quantidade_para_notional, atualizar_compras, calcular_ganhos]

/-- C9 (amended): the three volatility buckets set the minimum re-evaluation
interval to 30, 15 and 5 minutes respectively — higher volatility imposes a
shorter interval, not a longer one — and the stop percentage used by the
sell cycle is a fixed 3%, independent of volatility. -/
theorem intervalo_volatilidade_buckets :
    (∀ v : ℚ, v < 5/1000 → ajustar_intervalo_por_volatilidade v = 30)
    ∧ (∀ v : ℚ, 5/1000 ≤ v → v < 1/100 →
        ajustar_intervalo_por_volatilidade v = 15)
    ∧ (∀ v : ℚ, 1/100 ≤ v → ajustar_intervalo_por_volatilidade v = 5)
    ∧ (∀ p : ℚ, (atualizar_stop_trailing none p).1 = p * (1 - 3/100)) := by
  refine ⟨?_, ?_, ?_, ?_⟩
  · intro v h
    simp [ajustar_intervalo_por_volatilidade, h]
  · intro v h1 h2
    unfold ajustar_intervalo_por_volatilidade
    rw [if_neg (not_lt.mpr h1), if_pos h2]
  · intro v h
    unfold ajustar_intervalo_por_volatilidade
    rw [if_neg (by linarith : ¬ v < 5/1000), if_neg (not_lt.mpr h)]
  · intro p
    show p * (97/100) = p * (1 - 3/100)
    norm_num

/-- Witness for C9's amended theorem: one volatility per bucket. -/
theorem intervalo_volatilidade_buckets_witness :
    ajustar_intervalo_por_volatilidade (1/1000) = 30
    ∧ ajustar_intervalo_por_volatilidade (7/1000) = 15
    ∧ ajustar_intervalo_por_volatilidade (2/100) = 5 :=
  ⟨intervalo_volatilidade_buckets.1 (1/1000) (by norm_num),
   intervalo_volatilidade_buckets.2.1 (7/1000) (by norm_num) (by norm_num),
   intervalo_volatilidade_buckets.2.2.1 (2/100) (by norm_num)⟩

/-- C9 counterexample: the widest-percentage bucket (volatility `>= 0.01`)
gets the 5-minute interval, strictly shorter than the 30-minute interval of
the narrowest bucket — the claimed monotonicity (wider bucket, longer
interval) is reversed in the code. -/
theorem intervalo_volatilidade_counterexample :
    ajustar_intervalo_por_volatilidade (2/100)
      < ajustar_intervalo_por_volatilidade (1/1000) := by
  norm_num [ajustar_intervalo_por_volatilidade]

theorem vender_guard_aux (db : DBState) (symbol action : String)
    (preco_atual min_notional saldo_moeda : ℚ) (fill : Option (ℚ × ℚ))
    (h : preco_atual ≤
        (calcular_preco_medio_e_quantidade_banco db.transacoes symbol).1
        + (calcular_preco_medio_e_quantidade_banco db.transacoes symbol).2.2
          * (1005/1000)) :
    vender db symbol action preco_atual min_notional saldo_moeda fill
      = (db, false) := by
  simp only [vender]
  split_ifs with h1 h2
  · rfl
  · rfl
  · rfl

/-- C10: whenever the average open buy cost plus buy fees times 1.005 is at
or above the ticker price, `vender` aborts before submitting any order: no
order is handed to the executor and the persisted state (buy rows, gains,
stop-loss row) is returned unchanged — and the same guard applies inside the
sell cycle when the sale was triggered by `currentPrice <= stopPrice`. -/
theorem vender_guard_aborts :
    (∀ (db : DBState) (symbol action : String)
        (preco_atual min_notional saldo_moeda : ℚ) (fill : Option (ℚ × ℚ)),
      preco_atual ≤
          (calcular_preco_medio_e_quantidade_banco db.transacoes symbol).1
          + (calcular_preco_medio_e_quantidade_banco db.transacoes symbol).2.2
            * (1005/1000) →
      vender db symbol action preco_atual min_notional saldo_moeda fill
        = (db, false))
    ∧ (∀ (db : DBState) (s m : ℚ) (symbol : String)
        (preco_atual min_notional saldo_moeda : ℚ) (fill : Option (ℚ × ℚ)),
      db.stopRow = some (s, m) → preco_atual ≤ s → s ≤ m →
      preco_atual ≤
          (calcular_preco_medio_e_quantidade_banco db.transacoes symbol).1
          + (calcular_preco_medio_e_quantidade_banco db.transacoes symbol).2.2
            * (1005/1000) →
      executar_estrategia_venda_ciclo db symbol preco_atual min_notional
        saldo_moeda fill = (db, false)) := by
  refine ⟨fun db symbol action p mn sm fill h =>
    vender_guard_aux db symbol action p mn sm fill h, ?_⟩
  intro db s m symbol p mn sm fill hrow hps hsm h
  have hsp : atualizar_stop_trailing db.stopRow p = (s, m) := by
    rw [hrow]
    simp only [atualizar_stop_trailing]
    rw [if_neg (not_lt.mpr (le_trans hps hsm))]
  unfold executar_estrategia_venda_ciclo
  simp only [hsp]
  rw [if_pos hps, vender_guard_aux db symbol "Vender" p mn sm fill h]
  cases db with
  | mk t g r =>
    simp only at hrow
    simp [hrow]

/-- Witness for C10: a stop-triggered cycle (price 90 at or below stop 95)
where the guard holds (average cost 100 at or above price 90) leaves the
state unchanged and sends no order, despite a live exchange fill being
available. -/
theorem vender_guard_aborts_witness :
    executar_estrategia_venda_ciclo
        ⟨[⟨"BTCUSDT", "COMPRA", 1, 100, 0, false⟩], [], some (95, 97)⟩
        "BTCUSDT" 90 10 5 (some (90, 1/10))
      = (⟨[⟨"BTCUSDT", "COMPRA", 1, 100, 0, false⟩], [], some (95, 97)⟩,
         false) :=
  vender_guard_aborts.2
    ⟨[⟨"BTCUSDT", "COMPRA", 1, 100, 0, false⟩], [], some (95, 97)⟩
    95 97 "BTCUSDT" 90 10 5 (some (90, 1/10)) rfl (by norm_num) (by norm_num)
    (by norm_num [calcular_preco_medio_e_quantidade_banco, obter_transacoes])
